import Mathlib

/-!
Verification of the pdf-tracker repository's event pipeline.

This file gives a shallow embedding of the three pipeline variants in the
repository (`src/app.py`, `src/debud_app.py`, `src/debug_app.py`) and proves
or refutes the specification claims about them.

Modelling conventions:
* Python strings are Lean `String`; environment variables are `Option String`
  and Python truthiness of such a value is `truthy` below.
* JSON numbers are `ℚ`; a possibly-absent JSON number is `Option ℚ` and its
  Python truthiness is `truthyQ` (0 and absent are both falsy).
* Each outbound call (SMTP, chat HTTP, geolocation HTTP, DB insert/update) is
  modelled by an environment field describing its outcome: `Except e a` where
  `Except.error` is a raised Python exception caught by the code under test.
* Side effects are recorded as a trace of `Action`s in program order, so the
  ordering claims become statements about traces.
* The JSON-to-field parsing of the three geolocation providers is abstracted
  into a `ProvRes` record carried by the HTTP response; the HTTP status check
  and the per-provider exception handling are modelled explicitly.
* Where behavior turns on JSON null values (Python's `data.get` defaults
  only absent keys, so a present null flows through as `None`), a finer
  model is used: `JStr`/`JNum` distinguish absent, null and present fields,
  and `get_geo_info_null` / `tryIpapiNull` are the null-faithful embeddings
  of the corresponding source functions.  The coarser `GeoOutcome`/`ProvRes`
  model is their null-free restriction.
-/

namespace PdfTracker

/-- Python truthiness of an optional string (`os.getenv` result): `None` and
the empty string are falsy. -/
def truthy : Option String → Bool
  | none => false
  | some s => decide (s ≠ "")

/-- Python truthiness of an optional JSON number: absent and `0` are falsy. -/
def truthyQ : Option ℚ → Bool
  | none => false
  | some x => decide (x ≠ 0)

/-- Character-list matching at the head: `headMatch p s` is true iff `p` is an
initial segment of `s`.  This is Python's `str.startswith`. -/
def headMatch : List Char → List Char → Bool
  | [], _ => true
  | _ :: _, [] => false
  | a :: as, b :: bs => a == b && headMatch as bs

/-- Python `s.startswith(p)`. -/
def strStartsWith (s p : String) : Bool := headMatch p.data s.data

/-- Observable side effects of one pipeline run, in program order. -/
inductive Action where
  /-- an HTTP request to the named geolocation provider -/
  | netGeo (provider : String)
  /-- an outbound SMTP session (the email channel's network call) -/
  | netEmail
  /-- an outbound HTTP request to the chat provider -/
  | netChat
  /-- return of `send_email_notification`, carrying its status string -/
  | emailSend (status : String)
  /-- return of `send_whatsapp_notification`, carrying its status string -/
  | chatSend (status : String)
  /-- the committed INSERT of the access-event row -/
  | dbInsert
  /-- the committed UPDATE of the row's channel statuses -/
  | dbUpdate
deriving DecidableEq

/-- `EMAIL_CONFIG` in `src/app.py` (also the email environment variables read
by the other two variants): each entry is the result of `os.getenv`. -/
structure EmailConfig where
  email_from : Option String
  email_password : Option String
  email_to : Option String
deriving DecidableEq

/-- `WHATSAPP_CONFIG`: the three chat-channel environment variables. -/
structure WhatsAppConfig where
  instance_id : Option String
  token : Option String
  to_number : Option String
deriving DecidableEq

/-- `all([config['email_from'], config['email_password'], config['email_to']])`
in `src/app.py` (`src/debud_app.py` uses the same test). -/
def emailConfigured (c : EmailConfig) : Bool :=
  truthy c.email_from && truthy c.email_password && truthy c.email_to

/-- `all([config['instance_id'], config['token'], config['to_number']])`, the
chat-channel configuration test used by all three variants. -/
def waConfigured (c : WhatsAppConfig) : Bool :=
  truthy c.instance_id && truthy c.token && truthy c.to_number

/-- `if not email_from or not email_password` in `src/debug_app.py`
(`EMAIL_TO` defaults to `EMAIL_FROM` there, so only these two are required). -/
def debugEmailConfigured (c : EmailConfig) : Bool :=
  decide (c.email_from.getD ("") ≠ "") && decide (c.email_password.getD ("") ≠ "")

/-- Outcome of the single `requests.get('http://ipapi.co/...')` call made by
`get_geo_info` (`src/app.py`): a raised exception, or a response with an HTTP
status and the two JSON fields the code reads (absent key ↦ `none`).  This is
the null-free restriction of `GeoJsonOutcome` below — a present-but-null
field is not representable here — and is used for the claims whose behavior
does not depend on JSON null values; `get_geo_info_null_agrees` relates the
two models. -/
inductive GeoOutcome where
  | exn (msg : String)
  | resp (status : Nat) (country_name : Option String) (city : Option String)

/-- The record returned by `ProductionPDFTracker.get_geo_info`. -/
structure GeoInfo where
  country : String
  city : String
  ip : String
deriving DecidableEq

/-- The private/loopback test of `src/app.py` line 61:
`ip_address.startswith(('192.168.', '10.', '172.', '127.', '0.'))`. -/
def appIsLocal (ip : String) : Bool :=
  strStartsWith ip ("192.168.") || strStartsWith ip ("10.") ||
  strStartsWith ip ("172.") || strStartsWith ip ("127.") || strStartsWith ip ("0.")

/-- `ProductionPDFTracker.get_geo_info` (`src/app.py` lines 58-75), also
`DebugPDFTracker.get_geo_info` (`src/debud_app.py` lines 269-286).  Returns
the geo record and the trace of outbound calls made. -/
def get_geo_info (ip : String) (o : GeoOutcome) : GeoInfo × List Action :=
  if appIsLocal ip then
    (⟨"Local", "Internal", ip⟩, [])
  else
    match o with
    | GeoOutcome.exn _ => (⟨"Unknown", "Unknown", ip⟩, [Action.netGeo ("ipapi")])
    | GeoOutcome.resp status cn c =>
      if status = 200 then
        ((⟨cn.getD ("Unknown"), c.getD ("Unknown"), ip⟩ : GeoInfo), [Action.netGeo ("ipapi")])
      else
        (⟨"Unknown", "Unknown", ip⟩, [Action.netGeo ("ipapi")])

/-- `ProductionPDFTracker.send_email_notification` (`src/app.py` lines 77-116).
`smtp` is the outcome of the SMTP session (connect/starttls/login/send); any
exception in it is caught by the blanket `except` and turned into a status.
The second component is the trace of outbound network calls. -/
def send_email_notification (c : EmailConfig) (smtp : Except String Unit) :
    String × List Action :=
  if emailConfigured c then
    ((match smtp with
      | Except.ok _ => "sent"
      | Except.error e => "error: " ++ e), [Action.netEmail])
  else
    ("not_configured", [])

/-- `ProductionPDFTracker.send_whatsapp_notification` (`src/app.py` lines
118-154).  `net` is the outcome of `requests.post`: an exception, or an HTTP
status code. -/
def send_whatsapp_notification (c : WhatsAppConfig) (net : Except String Nat) :
    String × List Action :=
  if waConfigured c then
    ((match net with
      | Except.ok status =>
        if status = 200 then "sent" else "api_error_" ++ toString status
      | Except.error e => "error: " ++ e), [Action.netChat])
  else
    ("not_configured", [])

/-- Inputs and external-call outcomes of one `record_access` run in
`src/app.py`. -/
structure AppEnv where
  pdf_id : String
  client_name : String
  ip : String
  user_agent : String
  geo : GeoOutcome
  emailCfg : EmailConfig
  waCfg : WhatsAppConfig
  smtp : Except String Unit
  waNet : Except String Nat
  /-- outcome of `cursor.execute(INSERT ...)`/`commit` -/
  ins : Except String Unit

/-- The `pdf_access` row written by `src/app.py`'s `record_access`. -/
structure AppRow where
  pdf_id : String
  client_name : String
  ip_address : String
  country : String
  city : String
  user_agent : String
  email_status : String
  whatsapp_status : String
  status : String
deriving DecidableEq

/-- Result of `ProductionPDFTracker.record_access` (`src/app.py` lines
156-190): the returned boolean, the local channel statuses, the inserted row
(if the insert committed) and the full effect trace.  Note the source order:
geo lookup, then both notification sends, then the single INSERT carrying the
final statuses; an insert exception is caught and yields `False` after the
notifications have already gone out. -/
structure AppResult where
  success : Bool
  email_status : String
  whatsapp_status : String
  row : Option AppRow
  trace : List Action

/-- `ProductionPDFTracker.record_access`. -/
def record_access (env : AppEnv) : AppResult :=
  let g := get_geo_info env.ip env.geo
  let e := send_email_notification env.emailCfg env.smtp
  let w := send_whatsapp_notification env.waCfg env.waNet
  let preTrace :=
    g.2 ++ e.2 ++ [Action.emailSend e.1] ++ w.2 ++ [Action.chatSend w.1]
  match env.ins with
  | Except.ok _ =>
    { success := true
      email_status := e.1
      whatsapp_status := w.1
      row := some ⟨env.pdf_id, env.client_name, env.ip, g.1.country, g.1.city,
                   env.user_agent, e.1, w.1, "opened"⟩
      trace := preTrace ++ [Action.dbInsert] }
  | Except.error _ =>
    { success := false
      email_status := e.1
      whatsapp_status := w.1
      row := none
      trace := preTrace }

/-- An HTTP response as seen by the recipient of the tracking request. -/
structure HttpResponse where
  status : Nat
  body : String
deriving DecidableEq

/-- `track_pdf_access` (`src/app.py` lines 203-231): on success the 1x1 GIF
pixel, otherwise `("Tracking Error", 500)`.  The body strings are tags for
the two fixed payloads. -/
def track_pdf_access (env : AppEnv) : HttpResponse × AppResult :=
  let r := record_access env
  if r.success then
    ((⟨200, "pixel"⟩ : HttpResponse), r)
  else
    ((⟨500, "Tracking Error"⟩ : HttpResponse), r)

/-- The six dictionary keys returned by each of `_try_ipapi`, `_try_ipinfo`
and `_try_geoplugin` in `src/debug_app.py` on a 200 response.  The JSON
parsing (including the `float(...) or None` zero-to-`None` coercion) is
abstracted into these fields; typing `country`/`city`/`region` as plain
`String` makes this the null-free restriction of `ProvResJ` below (a
provider body carrying JSON null in those keys is representable only there,
via `tryIpapiNull`).  The selection-loop and locality claims depend only on
control flow that null values do not change, so they use this model. -/
structure ProvRes where
  country : String
  city : String
  region : String
  latitude : Option ℚ
  longitude : Option ℚ
  service : String
deriving DecidableEq

/-- Outcome of one provider's `requests.get`: a raised exception (caught by
the provider's own `try`/`except`), or an HTTP response carrying the parsed
fields. -/
inductive ProvOutcome where
  | exn (msg : String)
  | resp (status : Nat) (res : ProvRes)

/-- Shared body of the three `_try_*` helpers: a 200 response yields the
parsed record, a non-200 response falls off the `if` and returns `None`, and
an exception is caught and returns `None`. -/
def tryService : ProvOutcome → Option ProvRes
  | ProvOutcome.exn _ => none
  | ProvOutcome.resp status r => if status = 200 then some r else none

/-- `PDFTracker._try_ipapi` (`src/debug_app.py` lines 100-116). -/
def tryIpapi (o : ProvOutcome) : Option ProvRes := tryService o

/-- `PDFTracker._try_ipinfo` (`src/debug_app.py` lines 118-138). -/
def tryIpinfo (o : ProvOutcome) : Option ProvRes := tryService o

/-- `PDFTracker._try_geoplugin` (`src/debug_app.py` lines 140-156). -/
def tryGeoplugin (o : ProvOutcome) : Option ProvRes := tryService o

/-- The `location_data` dictionary of `get_accurate_location`
(`src/debug_app.py` lines 59-69) minus the query `ip` entry, which nothing
downstream reads (the DB insert uses the request's `ip_address` directly). -/
structure LocationData where
  country : String
  city : String
  region : String
  latitude : Option ℚ
  longitude : Option ℚ
  accuracy : ℚ
  gps_source : String
  service : String
deriving DecidableEq

/-- The initial `location_data` value of `get_accurate_location`. -/
def baseLocation : LocationData :=
  { country := "Unknown", city := "Unknown", region := "Unknown"
    latitude := none, longitude := none, accuracy := 10000
    gps_source := "ip_geolocation", service := "none" }

/-- The local-network update applied by `get_accurate_location` lines 72-78:
only `country`, `city` and `accuracy` change relative to `baseLocation`. -/
def localSentinel : LocationData :=
  { baseLocation with country := "Local Network", city := "Internal", accuracy := 50000 }

/-- The private/loopback test of `src/debug_app.py` line 72:
`ip in ['127.0.0.1', 'localhost'] or ip.startswith(('192.168.', '10.', '172.', '0.'))`.
Note `'127.'` is NOT in the tuple. -/
def debugIsLocal (ip : String) : Bool :=
  decide (ip = "127.0.0.1") || decide (ip = "localhost") ||
  strStartsWith ip ("192.168.") || strStartsWith ip ("10.") ||
  strStartsWith ip ("172.") || strStartsWith ip ("0.")

/-- `result.get('latitude') and result.get('longitude')`: the truthiness test
that selects the coordinate branch of the provider loop. -/
def hasCoords (r : ProvRes) : Bool := truthyQ r.latitude && truthyQ r.longitude

/-- `location_data.update(result)`: overwrites the six provider keys, keeps
`accuracy` and `gps_source`. -/
def applyRes (acc : LocationData) (r : ProvRes) : LocationData :=
  { acc with country := r.country, city := r.city, region := r.region
             latitude := r.latitude, longitude := r.longitude, service := r.service }

/-- The `for result in services` loop of `get_accurate_location`
(`src/debug_app.py` lines 87-95).  The coordinate branch `break`s; the
city branch does not, so a later city-only provider overwrites an earlier
one. -/
def locLoop : List (Option ProvRes) → LocationData → LocationData
  | [], acc => acc
  | none :: rest, acc => locLoop rest acc
  | some r :: rest, acc =>
    if hasCoords r then
      { applyRes acc r with accuracy := 1000 }
    else if r.city ≠ "Unknown" then
      locLoop rest
        (if !truthyQ (applyRes acc r).latitude
            || !truthyQ (applyRes acc r).longitude then
          { applyRes acc r with accuracy := 5000 }
         else applyRes acc r)
    else
      locLoop rest acc

/-- `PDFTracker.get_accurate_location` (`src/debug_app.py` lines 57-98).
`o1`, `o2`, `o3` are the outcomes of the three provider HTTP calls; in the
source the `services` list is built eagerly, so on the non-local path all
three calls happen before the loop runs. -/
def get_accurate_location (ip : String) (o1 o2 o3 : ProvOutcome) :
    LocationData × List Action :=
  if debugIsLocal ip then
    (localSentinel, [])
  else
    (locLoop [tryIpapi o1, tryIpinfo o2, tryGeoplugin o3] baseLocation,
     [Action.netGeo ("ipapi"), Action.netGeo ("ipinfo"), Action.netGeo ("geoplugin")])

/-- The JSON body of a POST tracking request, as read by
`record_access_async` (`gps_data.get(...)` keys; absent key ↦ `none`). -/
structure GpsData where
  latitude : Option ℚ
  longitude : Option ℚ
  accuracy : Option ℚ
  country : Option String
  city : Option String
  region : Option String
deriving DecidableEq

/-- The GPS-vs-IP location choice of `record_access_async`
(`src/debug_app.py` lines 349-364): the GPS reading is used only when
`gps_data` is present and both coordinates are Python-truthy (so a 0
coordinate falls back to IP resolution). -/
def chooseLocation (gps : Option GpsData) (ipLoc : LocationData) : LocationData :=
  match gps with
  | none => ipLoc
  | some g =>
    if truthyQ g.latitude && truthyQ g.longitude then
      { country := g.country.getD ipLoc.country
        city := g.city.getD ipLoc.city
        region := g.region.getD ipLoc.region
        latitude := g.latitude
        longitude := g.longitude
        accuracy := g.accuracy.getD 50
        gps_source := "browser_gps"
        service := "browser_geolocation" }
    else
      ipLoc

/-- `PDFTracker.send_email_notification` (`src/debug_app.py` lines 158-243).
Any exception in the SMTP session is caught by the blanket `except`. -/
def debug_send_email_notification (c : EmailConfig) (smtp : Except String Unit) :
    String × List Action :=
  if debugEmailConfigured c then
    ((match smtp with
      | Except.ok _ => "sent"
      | Except.error e => "error: " ++ e), [Action.netEmail])
  else
    ("not_configured", [])

/-- The chat HTTP call's outcome in `src/debug_app.py`: an exception, or an
HTTP status together with whether the JSON body has `sent == 'true'` and the
body text used in the error status. -/
inductive DebugWaOutcome where
  | exn (msg : String)
  | resp (status : Nat) (sentTrue : Bool) (text : String)

/-- `PDFTracker.send_whatsapp_notification` (`src/debug_app.py` lines
245-331): 200 with `sent == 'true'` ↦ `sent`; 200 otherwise ↦
`api_error: ...`; non-200 ↦ `http_error: <code>`; exception ↦ `error: ...`. -/
def debug_send_whatsapp_notification (c : WhatsAppConfig) (net : DebugWaOutcome) :
    String × List Action :=
  if waConfigured c then
    ((match net with
      | DebugWaOutcome.exn e => "error: " ++ e
      | DebugWaOutcome.resp status sentTrue text =>
        if status = 200 then
          if sentTrue then "sent" else "api_error: " ++ text
        else "http_error: " ++ toString status), [Action.netChat])
  else
    ("not_configured", [])

/-- Inputs and external-call outcomes of one `record_access_async` background
run in `src/debug_app.py`. -/
structure DebugEnv where
  pdf_id : String
  client_name : String
  ip : String
  user_agent : String
  /-- the parsed POST body; a malformed or absent body is `none` -/
  gps : Option GpsData
  geo1 : ProvOutcome
  geo2 : ProvOutcome
  geo3 : ProvOutcome
  emailCfg : EmailConfig
  smtp : Except String Unit
  waCfg : WhatsAppConfig
  waNet : DebugWaOutcome
  /-- outcome of the INSERT + commit -/
  ins : Except String Nat
  /-- outcome of the status UPDATE + commit -/
  upd : Except String Unit

/-- The `pdf_access` row written by `src/debug_app.py`. -/
structure DebugRow where
  pdf_id : String
  client_name : String
  ip_address : String
  loc : LocationData
  user_agent : String
  email_status : String
  whatsapp_status : String
  status : String
deriving DecidableEq

/-- Result of one background `process_notifications` run. -/
structure ProcResult where
  /-- the row as it finally stands in the store (`none` if the insert raised) -/
  row : Option DebugRow
  trace : List Action

/-- The `process_notifications` closure of `PDFTracker.record_access_async`
(`src/debug_app.py` lines 335-407): resolve IP location, choose GPS vs IP,
INSERT the row with both statuses `processing`, send both notifications, then
UPDATE the statuses.  An exception anywhere is caught by the outer
`try`/`except`, so an insert failure skips the notification chain and an
update failure leaves the row at `processing`. -/
def process_notifications (env : DebugEnv) : ProcResult :=
  let ipl := get_accurate_location env.ip env.geo1 env.geo2 env.geo3
  let loc := chooseLocation env.gps ipl.1
  match env.ins with
  | Except.error _ => { row := none, trace := ipl.2 }
  | Except.ok _ =>
    let row0 : DebugRow :=
      ⟨env.pdf_id, env.client_name, env.ip, loc, env.user_agent,
       "processing", "processing", "opened"⟩
    let e := debug_send_email_notification env.emailCfg env.smtp
    let w := debug_send_whatsapp_notification env.waCfg env.waNet
    let tr := ipl.2 ++ [Action.dbInsert] ++ e.2 ++ [Action.emailSend e.1]
              ++ w.2 ++ [Action.chatSend w.1]
    match env.upd with
    | Except.ok _ =>
      { row := some { row0 with email_status := e.1, whatsapp_status := w.1 }
        trace := tr ++ [Action.dbUpdate] }
    | Except.error _ =>
      { row := some row0, trace := tr }

/-- The request method of the tracking endpoint in `src/debug_app.py`. -/
inductive Method where
  | get
  | post

/-- `track_pdf_access` in `src/debug_app.py` (lines 423-463):
`record_access_async` spawns the background thread and returns `True`
unconditionally, and the handler immediately returns the ack (POST) or the
pixel (GET).  A GET request carries no JSON body, so its background run sees
`gps_data = None`. -/
def debug_track_pdf_access (m : Method) (env : DebugEnv) :
    HttpResponse × ProcResult :=
  match m with
  | Method.post => ((⟨200, "ack"⟩ : HttpResponse), process_notifications env)
  | Method.get =>
    ((⟨200, "pixel"⟩ : HttpResponse),
     process_notifications { env with gps := none })

/-- The SMTP exception kinds distinguished by `src/debud_app.py`'s
`send_email_notification`. -/
inductive SmtpExc where
  | auth (msg : String)
  | smtp (msg : String)
  | other (msg : String)

/-- `DebugPDFTracker.send_email_notification` (`src/debud_app.py` lines
148-211).  Note the missing-configuration status is
`config_error: Email configuration incomplete`, not `not_configured`. -/
def debud_send_email_notification (c : EmailConfig) (smtp : Except SmtpExc Unit) :
    String × List Action :=
  if emailConfigured c then
    ((match smtp with
      | Except.ok _ => "sent"
      | Except.error (SmtpExc.auth e) =>
        "auth_error: SMTP Authentication failed: " ++ e
      | Except.error (SmtpExc.smtp e) => "smtp_error: SMTP error: " ++ e
      | Except.error (SmtpExc.other e) =>
        "error: Unexpected error: " ++ e), [Action.netEmail])
  else
    ("config_error: Email configuration incomplete", [])

/-- The chat-call exception kinds distinguished by `src/debud_app.py`. -/
inductive WaExc where
  | request (msg : String)
  | other (msg : String)

/-- `DebugPDFTracker.send_whatsapp_notification` (`src/debud_app.py` lines
213-267).  The missing-configuration status is
`config_error: WhatsApp configuration incomplete`. -/
def debud_send_whatsapp_notification (c : WhatsAppConfig)
    (net : Except WaExc (Nat × String)) : String × List Action :=
  if waConfigured c then
    ((match net with
      | Except.ok st =>
        if st.1 = 200 then "sent"
        else "api_error: API returned " ++ toString st.1 ++ ": " ++ st.2
      | Except.error (WaExc.request e) => "request_error: Request failed: " ++ e
      | Except.error (WaExc.other e) =>
        "error: Unexpected error: " ++ e), [Action.netChat])
  else
    ("config_error: WhatsApp configuration incomplete", [])

/-- Actions that belong to a notification attempt (either channel's network
call or the return of either send operation). -/
def isNotify : Action → Bool
  | Action.netEmail => true
  | Action.netChat => true
  | Action.emailSend _ => true
  | Action.chatSend _ => true
  | _ => false

/-- Recogniser for the INSERT action. -/
def isDbInsert : Action → Bool
  | Action.dbInsert => true
  | _ => false

/-- Recogniser for the UPDATE action. -/
def isDbUpdate : Action → Bool
  | Action.dbUpdate => true
  | _ => false

/-- Recogniser for the return of the email send operation. -/
def isEmailSend : Action → Bool
  | Action.emailSend _ => true
  | _ => false

/-- Recogniser for the return of the chat send operation. -/
def isChatSend : Action → Bool
  | Action.chatSend _ => true
  | _ => false

/-- True iff no action of the list is a notification action. -/
def noNotify : List Action → Bool
  | [] => true
  | a :: rest => !isNotify a && noNotify rest

/-- True iff no notification action occurs strictly before the first INSERT
(vacuously true when the trace has notifications but no INSERT only if the
notifications are absent too, since every action before the missing INSERT is
checked). -/
def noNotifyBeforeInsert : List Action → Bool
  | [] => true
  | a :: rest =>
    if isDbInsert a then true else !isNotify a && noNotifyBeforeInsert rest

/-- True iff no notification action occurs at or after the first UPDATE. -/
def noNotifyAfterUpdate : List Action → Bool
  | [] => true
  | a :: rest => if isDbUpdate a then noNotify rest else noNotifyAfterUpdate rest

/-- The ordering asserted by the spec for one access event: persistence
happens-before both notification attempts happen-before the status update. -/
def persistNotifyUpdateOrder (tr : List Action) : Bool :=
  noNotifyBeforeInsert tr && noNotifyAfterUpdate tr

/-- True iff no notification action occurs after the first INSERT: the
opposite ordering, in which the row is written only after both channels were
attempted. -/
def noNotifyAfterInsert : List Action → Bool
  | [] => true
  | a :: rest => if isDbInsert a then noNotify rest else noNotifyAfterInsert rest

/-- Number of actions satisfying `p`. -/
def countAct (p : Action → Bool) : List Action → Nat
  | [] => 0
  | a :: rest => (if p a then 1 else 0) + countAct p rest

/-- `Except.ok`-ness of an external call outcome. -/
def exOk : Except ε α → Bool
  | Except.ok _ => true
  | Except.error _ => false

/-- The first provider result carrying truthy latitude and longitude — the
selection the spec describes for the coordinate case. -/
def firstCoords : List (Option ProvRes) → Option ProvRes
  | [] => none
  | none :: rest => firstCoords rest
  | some r :: rest => if hasCoords r then some r else firstCoords rest

/-- The first provider result with a known city — what the spec claims the
city fallback selects. -/
def firstCity : List (Option ProvRes) → Option ProvRes
  | [] => none
  | none :: rest => firstCity rest
  | some r :: rest => if r.city ≠ "Unknown" then some r else firstCity rest

/-- The last provider result with a known city — what the code's loop
actually keeps in the no-coordinates case, because the city branch does not
`break`. -/
def lastCity : List (Option ProvRes) → Option ProvRes
  | [] => none
  | o :: rest =>
    match lastCity rest with
    | some r => some r
    | none =>
      match o with
      | some r => if r.city ≠ "Unknown" then some r else none
      | none => none

/-- True iff no provider result carries truthy coordinates. -/
def noCoords : List (Option ProvRes) → Bool
  | [] => true
  | none :: rest => noCoords rest
  | some r :: rest => !hasCoords r && noCoords rest

/-- The location record produced by accepting provider result `r` with
accuracy `a` (every `update(result)` overwrites all six provider keys, and
`gps_source` is never touched by the loop). -/
def provRecord (gs : String) (r : ProvRes) (a : ℚ) : LocationData :=
  { country := r.country, city := r.city, region := r.region
    latitude := r.latitude, longitude := r.longitude, accuracy := a
    gps_source := gs, service := r.service }

/-- The dotted-quad rendering of four octets. -/
def dottedQuad (a b c d : Nat) : String :=
  toString a ++ "." ++ toString b ++ "." ++ toString c ++ "." ++ toString d

/-- Membership of the dotted quad `a.b.c.d` in the four private/loopback CIDR
ranges named by the spec: 10.0.0.0/8, 172.16.0.0/12, 192.168.0.0/16,
127.0.0.0/8. -/
def inPrivateCIDR (a b : Nat) : Prop :=
  a = 10 ∨ (a = 172 ∧ 16 ≤ b ∧ b ≤ 31) ∨ (a = 192 ∧ b = 168) ∨ a = 127

/-- A string-valued JSON field as Python sees it through a parsed body: the
key may be absent, present with value `null`, or present with a string. -/
inductive JStr where
  | absent
  | null
  | str (s : String)
deriving DecidableEq

/-- A number-valued JSON field: absent, `null`, or a number. -/
inductive JNum where
  | absent
  | null
  | num (q : ℚ)
deriving DecidableEq

/-- Python `data.get(key, default)` for a string-valued key: the default
fills in only for an ABSENT key; a present `null` comes back as Python
`None`, which `get` does NOT replace by the default. -/
def jgetD : JStr → String → Option String
  | JStr.absent, d => some d
  | JStr.null, _ => none
  | JStr.str s, _ => some s

/-- `float(data.get(key, 0))`: an absent key gives `float(0) = 0.0`, a
number gives the number, and a present `null` makes `float(None)` raise
`TypeError`. -/
def jfloatD : JNum → Except String ℚ
  | JNum.absent => Except.ok 0
  | JNum.null => Except.error ("TypeError: float() argument is None")
  | JNum.num q => Except.ok q

/-- The `... or None` coercion applied to the parsed coordinate: `0.0`
becomes `None`. -/
def floatOrNone (q : ℚ) : Option ℚ := if q = 0 then none else some q

/-- Outcome of the `requests.get` in `get_geo_info` with the two JSON fields
the code reads carried as `JStr`, so that a present-but-null value is
representable (unlike the coarser `GeoOutcome`). -/
inductive GeoJsonOutcome where
  | exn (msg : String)
  | resp (status : Nat) (country_name : JStr) (city : JStr)

/-- The dictionary returned by `get_geo_info`, with field values exactly as
Python produces them: a string, or `None` when the provider sent JSON null. -/
structure GeoInfoJ where
  country : Option String
  city : Option String
  ip : String
deriving DecidableEq

/-- Null-faithful `ProductionPDFTracker.get_geo_info` (`src/app.py` lines
58-75, identically `src/debud_app.py` lines 269-286): on a 200 response the
fields go through `data.get(..., 'Unknown')`, which defaults only absent
keys, so a JSON null flows into the returned record as `None`.  On null-free
outcomes this agrees with `get_geo_info` (see `get_geo_info_null_agrees`). -/
def get_geo_info_null (ip : String) (o : GeoJsonOutcome) : GeoInfoJ × List Action :=
  if appIsLocal ip then
    ((⟨some ("Local"), some ("Internal"), ip⟩ : GeoInfoJ), [])
  else
    match o with
    | GeoJsonOutcome.exn _ =>
      (⟨some ("Unknown"), some ("Unknown"), ip⟩, [Action.netGeo ("ipapi")])
    | GeoJsonOutcome.resp status cn c =>
      if status = 200 then
        ((⟨jgetD cn ("Unknown"), jgetD c ("Unknown"), ip⟩ : GeoInfoJ),
         [Action.netGeo ("ipapi")])
      else
        (⟨some ("Unknown"), some ("Unknown"), ip⟩, [Action.netGeo ("ipapi")])

/-- Null-faithful provider result: the string fields are a string or Python
`None` (compare the null-free `ProvRes`). -/
structure ProvResJ where
  country : Option String
  city : Option String
  region : Option String
  latitude : Option ℚ
  longitude : Option ℚ
  service : String
deriving DecidableEq

/-- Outcome of one provider HTTP call with every JSON field the `_try_*`
parsers read carried as a JSON value (absent / null / present). -/
inductive ProvJsonOutcome where
  | exn (msg : String)
  | resp (status : Nat) (country_name city region : JStr)
      (latitude longitude : JNum)

/-- Null-faithful `PDFTracker._try_ipapi` (`src/debug_app.py` lines 100-116):
the string fields go through `data.get(..., 'Unknown')` and may come out
`None`; a null coordinate makes `float(None)` raise inside the provider's
own `try`, so the whole provider result is discarded (`None`), exactly like
a transport exception. -/
def tryIpapiNull (o : ProvJsonOutcome) : Option ProvResJ :=
  match o with
  | ProvJsonOutcome.exn _ => none
  | ProvJsonOutcome.resp status cn c rg lat lng =>
    if status = 200 then
      match jfloatD lat, jfloatD lng with
      | Except.ok la, Except.ok lo =>
        some ⟨jgetD cn ("Unknown"), jgetD c ("Unknown"), jgetD rg ("Unknown"),
              floatOrNone la, floatOrNone lo, "ipapi"⟩
      | _, _ => none
    else none

/-- Embedding of the null-free field model into the JSON field model. -/
def jstrOfOpt : Option String → JStr
  | none => JStr.absent
  | some s => JStr.str s

theorem headMatch_append (l t : List Char) : headMatch l (l ++ t) = true := by
  induction l with
  | nil => rfl
  | cons a as ih => simp [headMatch, ih]

theorem strData_append (s t : String) : (s ++ t).data = s.data ++ t.data := rfl

theorem strStartsWith_of_data (s p : String) (t : List Char)
    (h : s.data = p.data ++ t) : strStartsWith s p = true := by
  simp [strStartsWith, h, headMatch_append]

theorem dottedQuad_data (a b c d : Nat) :
    (dottedQuad a b c d).data =
      (toString a).data ++ (".").data ++ (toString b).data ++ (".").data ++
      (toString c).data ++ (".").data ++ (toString d).data := by
  simp [dottedQuad, strData_append]

/-- A dotted quad whose first octet renders (followed by a dot) as `p` has
`p` as an initial segment. -/
theorem dottedQuad_starts1 (p : String) (a : Nat)
    (h : (toString a).data ++ (".").data = p.data) (b c d : Nat) :
    strStartsWith (dottedQuad a b c d) p = true := by
  apply strStartsWith_of_data _ _
    ((toString b).data ++ (".").data ++ (toString c).data ++ (".").data ++
      (toString d).data)
  rw [dottedQuad_data]
  simp only [List.append_assoc]
  rw [← List.append_assoc, h]

/-- A dotted quad whose first two octets render (dotted) as `p` has `p` as an
initial segment. -/
theorem dottedQuad_starts2 (p : String) (a b : Nat)
    (h : (toString a).data ++ (".").data ++ (toString b).data ++ (".").data
          = p.data) (c d : Nat) :
    strStartsWith (dottedQuad a b c d) p = true := by
  apply strStartsWith_of_data _ _
    ((toString c).data ++ (".").data ++ (toString d).data)
  rw [dottedQuad_data]
  simp only [List.append_assoc] at h ⊢
  rw [← h]
  simp [List.append_assoc]

theorem dq10_starts (b c d : Nat) :
    strStartsWith (dottedQuad 10 b c d) ("10.") = true :=
  dottedQuad_starts1 ("10.") 10 (by decide) b c d

theorem dq172_starts (b c d : Nat) :
    strStartsWith (dottedQuad 172 b c d) ("172.") = true :=
  dottedQuad_starts1 ("172.") 172 (by decide) b c d

theorem dq127_starts (b c d : Nat) :
    strStartsWith (dottedQuad 127 b c d) ("127.") = true :=
  dottedQuad_starts1 ("127.") 127 (by decide) b c d

theorem dq0_starts (b c d : Nat) :
    strStartsWith (dottedQuad 0 b c d) ("0.") = true :=
  dottedQuad_starts1 ("0.") 0 (by decide) b c d

theorem dq192168_starts (c d : Nat) :
    strStartsWith (dottedQuad 192 168 c d) ("192.168.") = true :=
  dottedQuad_starts2 ("192.168.") 192 168 (by decide) c d

theorem applyRes_gps_source (acc : LocationData) (r : ProvRes) :
    (applyRes acc r).gps_source = acc.gps_source := rfl

/-- The loop keeps the first coordinate-bearing provider result, whatever the
accumulated record was, because `update(result)` overwrites all six provider
keys and the branch sets `accuracy` to 1000 and `break`s. -/
theorem locLoop_firstCoords (l : List (Option ProvRes)) :
    ∀ (acc : LocationData) (r : ProvRes), firstCoords l = some r →
      locLoop l acc = provRecord acc.gps_source r 1000 := by
  induction l with
  | nil => intro acc r h; simp [firstCoords] at h
  | cons o rest ih =>
    intro acc r h
    cases o with
    | none =>
      simp only [firstCoords] at h
      simp only [locLoop]
      exact ih acc r h
    | some p =>
      by_cases hc : hasCoords p = true
      · rw [firstCoords, if_pos hc] at h
        cases h
        simp only [locLoop]
        rw [if_pos hc]
        simp [provRecord, applyRes]
      · rw [firstCoords, if_neg hc] at h
        simp only [locLoop]
        rw [if_neg hc]
        by_cases hcity : p.city ≠ "Unknown"
        · rw [if_pos hcity, ih _ r h]
          congr 1
          by_cases hacc : (!truthyQ (applyRes acc p).latitude
              || !truthyQ (applyRes acc p).longitude) = true
          · rw [if_pos hacc]; rfl
          · rw [if_neg hacc]; rfl
        · rw [if_neg hcity]
          exact ih acc r h

/-- When no provider supplies coordinates the loop's final record is that of
the LAST city-bearing provider (each later one overwrites the earlier), with
accuracy 5000; if no provider supplies even a city, the accumulator is
returned unchanged. -/
theorem locLoop_noCoords (l : List (Option ProvRes)) :
    ∀ acc : LocationData, noCoords l = true →
      locLoop l acc =
        (match lastCity l with
         | some r => provRecord acc.gps_source r 5000
         | none => acc) := by
  induction l with
  | nil => intro acc _; simp [locLoop, lastCity]
  | cons o rest ih =>
    intro acc h
    cases o with
    | none =>
      simp only [noCoords] at h
      simp only [locLoop, lastCity]
      rw [ih acc h]
      cases lastCity rest <;> simp
    | some p =>
      simp only [noCoords, Bool.and_eq_true, Bool.not_eq_true'] at h
      obtain ⟨hc, hrest⟩ := h
      have hc' : ¬ hasCoords p = true := by simp [hc]
      by_cases hcity : p.city ≠ "Unknown"
      · have hfall : (!truthyQ (applyRes acc p).latitude
            || !truthyQ (applyRes acc p).longitude) = true := by
          have hb : (truthyQ p.latitude && truthyQ p.longitude) = false := hc
          simp only [applyRes]
          rcases Bool.and_eq_false_iff.mp hb with h1 | h1 <;> simp [h1]
        simp only [locLoop]
        rw [if_neg hc', if_pos hcity, if_pos hfall, ih _ hrest]
        simp only [lastCity]
        cases hlc : lastCity rest with
        | some x => simp [applyRes_gps_source]
        | none => simp [hcity, provRecord, applyRes]
      · simp only [locLoop]
        rw [if_neg hc', if_neg hcity, ih acc hrest]
        simp only [lastCity]
        cases hlc : lastCity rest with
        | some x => simp
        | none => simp [hcity]

/-- Actions that are an outbound network call to a notification channel. -/
def isChannelNet : Action → Bool
  | Action.netEmail => true
  | Action.netChat => true
  | _ => false

theorem countAct_append (p : Action → Bool) (l1 l2 : List Action) :
    countAct p (l1 ++ l2) = countAct p l1 + countAct p l2 := by
  induction l1 with
  | nil => simp [countAct]
  | cons a rest ih => simp [countAct, ih]; ring

/-- The network trace of `get_geo_info` is empty (local IP) or the single
ipapi call. -/
theorem geo_trace_shape (ip : String) (o : GeoOutcome) :
    (get_geo_info ip o).2 = [] ∨ (get_geo_info ip o).2 = [Action.netGeo ("ipapi")] := by
  by_cases h : appIsLocal ip = true
  · left; simp [get_geo_info, h]
  · right
    simp only [get_geo_info]
    rw [if_neg h]
    cases o with
    | exn m => rfl
    | resp s cn c => by_cases hs : s = 200 <;> simp [hs]

/-- The network trace of `get_accurate_location` is empty (local IP) or the
three provider calls. -/
theorem debug_geo_trace_shape (ip : String) (o1 o2 o3 : ProvOutcome) :
    (get_accurate_location ip o1 o2 o3).2 = [] ∨
    (get_accurate_location ip o1 o2 o3).2 =
      [Action.netGeo ("ipapi"), Action.netGeo ("ipinfo"), Action.netGeo ("geoplugin")] := by
  by_cases h : debugIsLocal ip = true
  · left; simp [get_accurate_location, h]
  · right; simp [get_accurate_location, h]

/-- If the loop finds no coordinate-bearing result then none exists. -/
theorem noCoords_of_firstCoords_none (l : List (Option ProvRes))
    (h : firstCoords l = none) : noCoords l = true := by
  induction l with
  | nil => rfl
  | cons o rest ih =>
    cases o with
    | none =>
      simp only [firstCoords] at h
      simp only [noCoords]
      exact ih h
    | some p =>
      by_cases hc : hasCoords p
      · simp [firstCoords, hc] at h
      · simp only [firstCoords, hc, Bool.false_eq_true, if_false] at h
        simp only [noCoords, hc, Bool.not_false, Bool.true_and]
        exact ih h

/-- C5 (amended): over the ordered provider list the resolver keeps the FIRST
result with truthy latitude and longitude (accuracy 1000); if no result has
coordinates it keeps the LAST result with a known city — not the first, since
the city branch of the loop does not `break` and each later city-bearing
result overwrites the earlier one — with accuracy 5000; if no result has even
a city the initial fully-Unknown record (accuracy 10000, `gps_source`
`ip_geolocation`, `service` `none` — there is no distinct `unavailable`
source value) is returned. -/
theorem provider_selection_amended (ip : String) (o1 o2 o3 : ProvOutcome) :
    (get_accurate_location ip o1 o2 o3).1 =
      if debugIsLocal ip then localSentinel
      else
        match firstCoords [tryIpapi o1, tryIpinfo o2, tryGeoplugin o3],
              lastCity [tryIpapi o1, tryIpinfo o2, tryGeoplugin o3] with
        | some r, _ => provRecord ("ip_geolocation") r 1000
        | none, some r => provRecord ("ip_geolocation") r 5000
        | none, none => baseLocation := by
  by_cases hl : debugIsLocal ip = true
  · simp [get_accurate_location, hl]
  · simp only [get_accurate_location]
    rw [if_neg hl, if_neg hl]
    cases hfc : firstCoords [tryIpapi o1, tryIpinfo o2, tryGeoplugin o3] with
    | some r =>
      rw [locLoop_firstCoords _ baseLocation r hfc]
      rfl
    | none =>
      have hnc := noCoords_of_firstCoords_none _ hfc
      rw [locLoop_noCoords _ baseLocation hnc]
      cases hlc : lastCity [tryIpapi o1, tryIpinfo o2, tryGeoplugin o3] with
      | some r => rfl
      | none => rfl

/-- C5 counterexample: with two city-only provider results the claim as
stated predicts the FIRST one (ipapi's `CityA`) is kept, but the code keeps
the LAST one (`CityB`). -/
theorem first_city_fallback_cex :
    firstCity
        [tryIpapi (ProvOutcome.resp 200
            ⟨"CountryA", "CityA", "RegionA", none, none, "ipapi"⟩),
         tryIpinfo (ProvOutcome.resp 200
            ⟨"CountryB", "CityB", "RegionB", none, none, "ipinfo"⟩),
         tryGeoplugin (ProvOutcome.exn ("down"))]
      = some ⟨"CountryA", "CityA", "RegionA", none, none, "ipapi"⟩ ∧
    (get_accurate_location ("9.9.9.9")
        (ProvOutcome.resp 200
          ⟨"CountryA", "CityA", "RegionA", none, none, "ipapi"⟩)
        (ProvOutcome.resp 200
          ⟨"CountryB", "CityB", "RegionB", none, none, "ipinfo"⟩)
        (ProvOutcome.exn ("down"))).1.city = "CityB" ∧
    ("CityB" : String) ≠ "CityA" :=
  ⟨by decide, by decide, by decide⟩

/-- C6 counterexample: `127.0.0.2` lies in the loopback range 127.0.0.0/8,
yet the debug resolver does not treat it as local: it queries all three
providers and returns the Unknown record, not the local sentinel. -/
theorem loopback_sentinel_cex :
    dottedQuad 127 0 0 2 = "127.0.0.2" ∧
    debugIsLocal ("127.0.0.2") = false ∧
    get_accurate_location ("127.0.0.2") (ProvOutcome.exn ("e1"))
        (ProvOutcome.exn ("e2")) (ProvOutcome.exn ("e3")) =
      (baseLocation,
       [Action.netGeo ("ipapi"), Action.netGeo ("ipinfo"),
        Action.netGeo ("geoplugin")]) ∧
    baseLocation.city ≠ "Internal" ∧ baseLocation.country ≠ "Local Network" :=
  ⟨by decide, by decide, by decide, by decide, by decide⟩

/-- C6 (amended): for every IP in 10.0.0.0/8, 172.16.0.0/12 or
192.168.0.0/16 both resolvers return their local sentinel with no outbound
call; for 127.0.0.0/8 the production resolver (`src/app.py`) does so for the
whole range, but the debug resolver (`src/debug_app.py`) only special-cases
the literal `127.0.0.1` — other loopback addresses are passed to the
geolocation providers. -/
theorem private_ip_sentinel_amended :
    (∀ b c d : Nat, ∀ o : GeoOutcome,
      get_geo_info (dottedQuad 10 b c d) o =
        (⟨"Local", "Internal", dottedQuad 10 b c d⟩, [])) ∧
    (∀ b c d : Nat, 16 ≤ b → b ≤ 31 → ∀ o : GeoOutcome,
      get_geo_info (dottedQuad 172 b c d) o =
        (⟨"Local", "Internal", dottedQuad 172 b c d⟩, [])) ∧
    (∀ c d : Nat, ∀ o : GeoOutcome,
      get_geo_info (dottedQuad 192 168 c d) o =
        (⟨"Local", "Internal", dottedQuad 192 168 c d⟩, [])) ∧
    (∀ b c d : Nat, ∀ o : GeoOutcome,
      get_geo_info (dottedQuad 127 b c d) o =
        (⟨"Local", "Internal", dottedQuad 127 b c d⟩, [])) ∧
    (∀ b c d : Nat, ∀ o1 o2 o3 : ProvOutcome,
      get_accurate_location (dottedQuad 10 b c d) o1 o2 o3 = (localSentinel, [])) ∧
    (∀ b c d : Nat, 16 ≤ b → b ≤ 31 → ∀ o1 o2 o3 : ProvOutcome,
      get_accurate_location (dottedQuad 172 b c d) o1 o2 o3 = (localSentinel, [])) ∧
    (∀ c d : Nat, ∀ o1 o2 o3 : ProvOutcome,
      get_accurate_location (dottedQuad 192 168 c d) o1 o2 o3 = (localSentinel, [])) ∧
    (∀ o1 o2 o3 : ProvOutcome,
      get_accurate_location ("127.0.0.1") o1 o2 o3 = (localSentinel, [])) := by
  refine ⟨?_, ?_, ?_, ?_, ?_, ?_, ?_, ?_⟩
  · intro b c d o
    have h := dq10_starts b c d
    have hl : appIsLocal (dottedQuad 10 b c d) = true := by simp [appIsLocal, h]
    simp [get_geo_info, hl]
  · intro b c d h16 h31 o
    have h := dq172_starts b c d
    have hl : appIsLocal (dottedQuad 172 b c d) = true := by simp [appIsLocal, h]
    simp [get_geo_info, hl]
  · intro c d o
    have h := dq192168_starts c d
    have hl : appIsLocal (dottedQuad 192 168 c d) = true := by simp [appIsLocal, h]
    simp [get_geo_info, hl]
  · intro b c d o
    have h := dq127_starts b c d
    have hl : appIsLocal (dottedQuad 127 b c d) = true := by simp [appIsLocal, h]
    simp [get_geo_info, hl]
  · intro b c d o1 o2 o3
    have h := dq10_starts b c d
    have hl : debugIsLocal (dottedQuad 10 b c d) = true := by simp [debugIsLocal, h]
    simp [get_accurate_location, hl]
  · intro b c d h16 h31 o1 o2 o3
    have h := dq172_starts b c d
    have hl : debugIsLocal (dottedQuad 172 b c d) = true := by simp [debugIsLocal, h]
    simp [get_accurate_location, hl]
  · intro c d o1 o2 o3
    have h := dq192168_starts c d
    have hl : debugIsLocal (dottedQuad 192 168 c d) = true := by simp [debugIsLocal, h]
    simp [get_accurate_location, hl]
  · intro o1 o2 o3
    simp [get_accurate_location, debugIsLocal]

/-- Witness for C6's amended theorem at concrete addresses in 172.16.0.0/12. -/
theorem private_ip_sentinel_witness :
    (16 ≤ 16 ∧ 16 ≤ 31 ∧ 16 ≤ 31 ∧ 31 ≤ 31) ∧
    get_geo_info (dottedQuad 172 16 0 1) (GeoOutcome.exn ("boom")) =
      (⟨"Local", "Internal", dottedQuad 172 16 0 1⟩, []) ∧
    get_accurate_location (dottedQuad 172 31 255 254) (ProvOutcome.exn ("a"))
        (ProvOutcome.exn ("b")) (ProvOutcome.exn ("c")) = (localSentinel, []) :=
  ⟨⟨by decide, by decide, by decide, by decide⟩,
   private_ip_sentinel_amended.2.1 16 0 1 (by decide) (by decide) _,
   private_ip_sentinel_amended.2.2.2.2.2.1 31 255 254 (by decide) (by decide) _ _ _⟩

/-- C10: `172.32.0.1` (outside 172.16.0.0/12) and `0.1.2.3` are public
addresses, yet both resolvers return the local sentinel for them without any
outbound call, because classification matches the textual `172.` / `0.`
beginnings of the address rather than CIDR range membership; indeed every
dotted quad with first octet 172 or 0 is classified local. -/
theorem textual_ip_match_overbroad :
    dottedQuad 172 32 0 1 = "172.32.0.1" ∧
    ¬ inPrivateCIDR 172 32 ∧
    (∀ o : GeoOutcome,
      get_geo_info ("172.32.0.1") o = (⟨"Local", "Internal", "172.32.0.1"⟩, [])) ∧
    (∀ o1 o2 o3 : ProvOutcome,
      get_accurate_location ("172.32.0.1") o1 o2 o3 = (localSentinel, [])) ∧
    dottedQuad 0 1 2 3 = "0.1.2.3" ∧
    ¬ inPrivateCIDR 0 1 ∧
    (∀ o : GeoOutcome,
      get_geo_info ("0.1.2.3") o = (⟨"Local", "Internal", "0.1.2.3"⟩, [])) ∧
    (∀ o1 o2 o3 : ProvOutcome,
      get_accurate_location ("0.1.2.3") o1 o2 o3 = (localSentinel, [])) ∧
    (∀ b c d : Nat, appIsLocal (dottedQuad 172 b c d) = true ∧
      debugIsLocal (dottedQuad 172 b c d) = true) ∧
    (∀ b c d : Nat, appIsLocal (dottedQuad 0 b c d) = true ∧
      debugIsLocal (dottedQuad 0 b c d) = true) := by
  refine ⟨by decide, ?_, ?_, ?_, by decide, ?_, ?_, ?_, ?_, ?_⟩
  · unfold inPrivateCIDR; omega
  · intro o
    have hl : appIsLocal ("172.32.0.1") = true := by decide
    simp [get_geo_info, hl]
  · intro o1 o2 o3
    have hl : debugIsLocal ("172.32.0.1") = true := by decide
    simp [get_accurate_location, hl]
  · unfold inPrivateCIDR; omega
  · intro o
    have hl : appIsLocal ("0.1.2.3") = true := by decide
    simp [get_geo_info, hl]
  · intro o1 o2 o3
    have hl : debugIsLocal ("0.1.2.3") = true := by decide
    simp [get_accurate_location, hl]
  · intro b c d
    have h := dq172_starts b c d
    exact ⟨by simp [appIsLocal, h], by simp [debugIsLocal, h]⟩
  · intro b c d
    have h := dq0_starts b c d
    exact ⟨by simp [appIsLocal, h], by simp [debugIsLocal, h]⟩

/-- On null-free outcomes the null-faithful `get_geo_info` model agrees with
the coarser `GeoOutcome`-based one used by the other claims. -/
theorem get_geo_info_null_agrees (ip : String) (s : Nat) (cn c : Option String) :
    (get_geo_info_null ip (GeoJsonOutcome.resp s (jstrOfOpt cn) (jstrOfOpt c))).1 =
      ⟨some (get_geo_info ip (GeoOutcome.resp s cn c)).1.country,
       some (get_geo_info ip (GeoOutcome.resp s cn c)).1.city, ip⟩ := by
  by_cases hl : appIsLocal ip = true
  · simp [get_geo_info_null, get_geo_info, hl]
  · by_cases hs : s = 200 <;>
      cases cn <;> cases c <;>
      simp [get_geo_info_null, get_geo_info, hl, hs, jstrOfOpt, jgetD]

/-- C8 counterexample: a 200 provider response whose `country_name` and
`city` are JSON null defeats `data.get`'s defaulting — the resolver returns
a record whose country and city are Python `None` (no string at all), not
populated `Unknown` strings. -/
theorem null_field_resolution_cex :
    (get_geo_info_null ("8.8.8.8")
        (GeoJsonOutcome.resp 200 JStr.null JStr.null)).1 =
      (⟨none, none, "8.8.8.8"⟩ : GeoInfoJ) ∧
    (get_geo_info_null ("8.8.8.8")
        (GeoJsonOutcome.resp 200 JStr.null JStr.null)).1.country ≠
      some ("Unknown") ∧
    (∀ s : String,
      (get_geo_info_null ("8.8.8.8")
          (GeoJsonOutcome.resp 200 JStr.null JStr.null)).1.city ≠ some s) := by
  have h : (get_geo_info_null ("8.8.8.8")
      (GeoJsonOutcome.resp 200 JStr.null JStr.null)).1 =
      (⟨none, none, "8.8.8.8"⟩ : GeoInfoJ) := by decide
  refine ⟨h, ?_, ?_⟩
  · rw [h]; simp
  · intro s; rw [h]; simp

/-- C8 (amended): both resolvers are total and never propagate a provider
exception — an exception or non-200 response yields the Unknown/sentinel
record, and in `_try_ipapi` a null coordinate makes `float(None)` raise
inside the provider's own `try`, discarding that provider's result exactly
like a transport failure; but string fields default to `Unknown` only when
the JSON key is ABSENT: `data.get` passes a present-but-null
country/city/region through as Python `None`, so those fields are not always
populated strings. -/
theorem location_resolution_amended :
    (∀ ip m : String,
      (get_geo_info_null ip (GeoJsonOutcome.exn m)).1 =
        if appIsLocal ip then
          (⟨some ("Local"), some ("Internal"), ip⟩ : GeoInfoJ)
        else ⟨some ("Unknown"), some ("Unknown"), ip⟩) ∧
    (∀ ip : String, ∀ s : Nat, ∀ cn c : JStr,
      (get_geo_info_null ip (GeoJsonOutcome.resp s cn c)).1 =
        if appIsLocal ip then
          (⟨some ("Local"), some ("Internal"), ip⟩ : GeoInfoJ)
        else if s = 200 then ⟨jgetD cn ("Unknown"), jgetD c ("Unknown"), ip⟩
        else ⟨some ("Unknown"), some ("Unknown"), ip⟩) ∧
    (∀ d : String, jgetD JStr.absent d = some d ∧ jgetD JStr.null d = none ∧
      ∀ s : String, jgetD (JStr.str s) d = some s) ∧
    (∀ m : String, tryIpapiNull (ProvJsonOutcome.exn m) = none) ∧
    (∀ cn c rg : JStr, ∀ lng : JNum, ∀ st : Nat,
      tryIpapiNull (ProvJsonOutcome.resp st cn c rg JNum.null lng) = none) ∧
    (∀ cn c rg : JStr, ∀ lat : JNum, ∀ st : Nat,
      tryIpapiNull (ProvJsonOutcome.resp st cn c rg lat JNum.null) = none) ∧
    (∀ cn c rg : JStr, ∀ la lo : ℚ, ∀ st : Nat,
      tryIpapiNull (ProvJsonOutcome.resp st cn c rg (JNum.num la) (JNum.num lo)) =
        if st = 200 then
          some ⟨jgetD cn ("Unknown"), jgetD c ("Unknown"), jgetD rg ("Unknown"),
                floatOrNone la, floatOrNone lo, "ipapi"⟩
        else none) ∧
    (∀ ip m1 m2 m3 : String,
      (get_accurate_location ip (ProvOutcome.exn m1) (ProvOutcome.exn m2)
          (ProvOutcome.exn m3)).1 =
        if debugIsLocal ip then localSentinel else baseLocation) := by
  refine ⟨?_, ?_, ?_, ?_, ?_, ?_, ?_, ?_⟩
  · intro ip m
    by_cases hl : appIsLocal ip = true <;> simp [get_geo_info_null, hl]
  · intro ip s cn c
    by_cases hl : appIsLocal ip = true
    · simp [get_geo_info_null, hl]
    · by_cases hs : s = 200 <;> simp [get_geo_info_null, hl, hs]
  · intro d
    exact ⟨rfl, rfl, fun s => rfl⟩
  · intro m; rfl
  · intro cn c rg lng st
    by_cases hs : st = 200 <;> cases lng <;> simp [tryIpapiNull, jfloatD, hs]
  · intro cn c rg lat st
    by_cases hs : st = 200 <;> cases lat <;> simp [tryIpapiNull, jfloatD, hs]
  · intro cn c rg la lo st
    by_cases hs : st = 200 <;> simp [tryIpapiNull, jfloatD, hs]
  · intro ip m1 m2 m3
    by_cases hl : debugIsLocal ip = true
    · simp [get_accurate_location, hl]
    · simp [get_accurate_location, hl, tryIpapi, tryIpinfo, tryGeoplugin,
        tryService, locLoop]

theorem email_trace_shape (c : EmailConfig) (smtp : Except String Unit) :
    (send_email_notification c smtp).2 = [] ∨
    (send_email_notification c smtp).2 = [Action.netEmail] := by
  by_cases h : emailConfigured c = true
  · right; simp [send_email_notification, h]
  · left; simp [send_email_notification, h]

theorem wa_trace_shape (c : WhatsAppConfig) (net : Except String Nat) :
    (send_whatsapp_notification c net).2 = [] ∨
    (send_whatsapp_notification c net).2 = [Action.netChat] := by
  by_cases h : waConfigured c = true
  · right; simp [send_whatsapp_notification, h]
  · left; simp [send_whatsapp_notification, h]

theorem debug_email_trace_shape (c : EmailConfig) (smtp : Except String Unit) :
    (debug_send_email_notification c smtp).2 = [] ∨
    (debug_send_email_notification c smtp).2 = [Action.netEmail] := by
  by_cases h : debugEmailConfigured c = true
  · right; simp [debug_send_email_notification, h]
  · left; simp [debug_send_email_notification, h]

theorem debug_wa_trace_shape (c : WhatsAppConfig) (net : DebugWaOutcome) :
    (debug_send_whatsapp_notification c net).2 = [] ∨
    (debug_send_whatsapp_notification c net).2 = [Action.netChat] := by
  by_cases h : waConfigured c = true
  · right; simp [debug_send_whatsapp_notification, h]
  · left; simp [debug_send_whatsapp_notification, h]

/-- The effect trace of the synchronous `record_access`, as a function of its
parts: geo lookup, email send, chat send, then the INSERT (only when it
commits). -/
theorem record_access_trace_eq (env : AppEnv) :
    (record_access env).trace =
      (get_geo_info env.ip env.geo).2 ++
      (send_email_notification env.emailCfg env.smtp).2 ++
      [Action.emailSend (send_email_notification env.emailCfg env.smtp).1] ++
      (send_whatsapp_notification env.waCfg env.waNet).2 ++
      [Action.chatSend (send_whatsapp_notification env.waCfg env.waNet).1] ++
      (match env.ins with
       | Except.ok _ => [Action.dbInsert]
       | Except.error _ => ([] : List Action)) := by
  cases h : env.ins <;> simp [record_access, h]

theorem record_access_statuses (env : AppEnv) :
    (record_access env).email_status =
      (send_email_notification env.emailCfg env.smtp).1 ∧
    (record_access env).whatsapp_status =
      (send_whatsapp_notification env.waCfg env.waNet).1 := by
  cases h : env.ins <;> simp [record_access, h]

/-- The effect trace of the asynchronous `process_notifications`: the geo
lookup alone when the INSERT raises, otherwise geo lookup, INSERT, both
sends, and the UPDATE (when it commits). -/
theorem process_trace_eq (env : DebugEnv) :
    (process_notifications env).trace =
      match env.ins with
      | Except.error _ =>
        (get_accurate_location env.ip env.geo1 env.geo2 env.geo3).2
      | Except.ok _ =>
        (get_accurate_location env.ip env.geo1 env.geo2 env.geo3).2 ++
        [Action.dbInsert] ++
        (debug_send_email_notification env.emailCfg env.smtp).2 ++
        [Action.emailSend (debug_send_email_notification env.emailCfg env.smtp).1] ++
        (debug_send_whatsapp_notification env.waCfg env.waNet).2 ++
        [Action.chatSend (debug_send_whatsapp_notification env.waCfg env.waNet).1] ++
        (match env.upd with
         | Except.ok _ => [Action.dbUpdate]
         | Except.error _ => ([] : List Action)) := by
  cases hi : env.ins <;> cases hu : env.upd <;>
    simp [process_notifications, hi, hu]

/-- Omnibus ordering/count facts about the asynchronous pipeline's trace. -/
theorem debug_pipeline_ordering (env : DebugEnv) :
    persistNotifyUpdateOrder (process_notifications env).trace = true ∧
    countAct isDbInsert (process_notifications env).trace =
      (if exOk env.ins then 1 else 0) ∧
    countAct isEmailSend (process_notifications env).trace =
      (if exOk env.ins then 1 else 0) ∧
    countAct isChatSend (process_notifications env).trace =
      (if exOk env.ins then 1 else 0) ∧
    countAct isDbUpdate (process_notifications env).trace =
      (if exOk env.ins && exOk env.upd then 1 else 0) := by
  obtain ⟨pid, cn, ip, ua, gps, g1, g2, g3, ec, sm, wc, wa, ins, upd⟩ := env
  rw [process_trace_eq]
  rcases debug_geo_trace_shape ip g1 g2 g3 with hg | hg <;>
  rcases debug_email_trace_shape ec sm with he | he <;>
  rcases debug_wa_trace_shape wc wa with hw | hw <;>
  cases ins <;> cases upd <;>
  simp [hg, he, hw, exOk, persistNotifyUpdateOrder, noNotifyBeforeInsert,
    noNotifyAfterUpdate, noNotify, countAct, isNotify, isDbInsert, isDbUpdate,
    isEmailSend, isChatSend]

/-- Omnibus ordering/count facts about the synchronous pipeline's trace. -/
theorem app_pipeline_ordering (env : AppEnv) :
    noNotifyAfterInsert (record_access env).trace = true ∧
    countAct isEmailSend (record_access env).trace = 1 ∧
    countAct isChatSend (record_access env).trace = 1 ∧
    countAct isDbUpdate (record_access env).trace = 0 ∧
    countAct isDbInsert (record_access env).trace =
      (if exOk env.ins then 1 else 0) := by
  obtain ⟨pid, cn, ip, ua, g, ec, wc, sm, wa, ins⟩ := env
  rw [record_access_trace_eq]
  rcases geo_trace_shape ip g with hg | hg <;>
  rcases email_trace_shape ec sm with he | he <;>
  rcases wa_trace_shape wc wa with hw | hw <;>
  cases ins <;>
  simp [hg, he, hw, exOk, noNotifyAfterInsert, noNotify, countAct, isNotify,
    isDbInsert, isDbUpdate, isEmailSend, isChatSend]

/-- C1 counterexample: in `src/app.py` both notification attempts precede the
single INSERT (which already carries the final statuses), so the claimed
persist-before-notify ordering is false there; at a concrete fully-successful
run the trace is geo call, email send, chat send, and only then the insert. -/
theorem record_access_notify_precedes_insert_cex :
    (record_access
      { pdf_id := "DOC1", client_name := "Alice", ip := "8.8.8.8"
        user_agent := "UA", geo := GeoOutcome.resp 200 (some ("US")) (some ("NYC"))
        emailCfg := ⟨some ("from"), some ("pw"), some ("to")⟩
        waCfg := ⟨some ("inst"), some ("tok"), some ("num")⟩
        smtp := Except.ok (), waNet := Except.ok 200
        ins := Except.ok () }).trace =
      [Action.netGeo ("ipapi"), Action.netEmail, Action.emailSend ("sent"),
       Action.netChat, Action.chatSend ("sent"), Action.dbInsert] ∧
    persistNotifyUpdateOrder
      ([Action.netGeo ("ipapi"), Action.netEmail, Action.emailSend ("sent"),
        Action.netChat, Action.chatSend ("sent"), Action.dbInsert]) = false :=
  ⟨by decide, by decide⟩

/-- C1 (amended): the asynchronous pipeline of `src/debug_app.py` does follow
persist happens-before notify happens-before status update (its trace has no
notification action before the INSERT nor after the UPDATE, with exactly one
of each per successfully inserted event); but the synchronous pipeline of
`src/app.py` performs both notification attempts BEFORE its single INSERT,
which is written once with the final statuses — there is no separate status
update there. -/
theorem pipeline_ordering_amended (env : DebugEnv) (aenv : AppEnv) :
    persistNotifyUpdateOrder (process_notifications env).trace = true ∧
    countAct isDbInsert (process_notifications env).trace =
      (if exOk env.ins then 1 else 0) ∧
    countAct isEmailSend (process_notifications env).trace =
      (if exOk env.ins then 1 else 0) ∧
    countAct isChatSend (process_notifications env).trace =
      (if exOk env.ins then 1 else 0) ∧
    countAct isDbUpdate (process_notifications env).trace =
      (if exOk env.ins && exOk env.upd then 1 else 0) ∧
    noNotifyAfterInsert (record_access aenv).trace = true ∧
    countAct isEmailSend (record_access aenv).trace = 1 ∧
    countAct isChatSend (record_access aenv).trace = 1 ∧
    countAct isDbUpdate (record_access aenv).trace = 0 := by
  obtain ⟨h1, h2, h3, h4, h5⟩ := debug_pipeline_ordering env
  obtain ⟨a1, a2, a3, a4, _⟩ := app_pipeline_ordering aenv
  exact ⟨h1, h2, h3, h4, h5, a1, a2, a3, a4⟩

/-- C2 counterexample: when the INSERT raises, `record_access` returns
`False` and the `src/app.py` handler answers the recipient with an HTTP 500
`Tracking Error` response instead of the pixel. -/
theorem track_error_response_cex :
    (track_pdf_access
      { pdf_id := "DOC1", client_name := "Alice", ip := "8.8.8.8"
        user_agent := "UA", geo := GeoOutcome.resp 200 (some ("US")) (some ("NYC"))
        emailCfg := ⟨some ("from"), some ("pw"), some ("to")⟩
        waCfg := ⟨some ("inst"), some ("tok"), some ("num")⟩
        smtp := Except.ok (), waNet := Except.ok 200
        ins := Except.error ("db locked") }).1 =
      (⟨500, "Tracking Error"⟩ : HttpResponse) :=
  by decide

/-- C2 (amended): the asynchronous handler of `src/debug_app.py` always
returns its normal response (pixel on GET, ack on POST) because the pipeline
runs detached and `record_access_async` returns `True` unconditionally; the
synchronous handler of `src/app.py` (and likewise `src/debud_app.py`) instead
returns an HTTP 500 `Tracking Error` to the recipient whenever
`record_access` fails, e.g. when the event insert raises. -/
theorem tracking_response_amended (env : AppEnv) (denv : DebugEnv) (m : Method) :
    (debug_track_pdf_access m denv).1.status = 200 ∧
    (debug_track_pdf_access Method.get denv).1 = (⟨200, "pixel"⟩ : HttpResponse) ∧
    (debug_track_pdf_access Method.post denv).1 = (⟨200, "ack"⟩ : HttpResponse) ∧
    (track_pdf_access env).1 =
      (if (record_access env).success then (⟨200, "pixel"⟩ : HttpResponse)
       else ⟨500, "Tracking Error"⟩) := by
  refine ⟨?_, rfl, rfl, ?_⟩
  · cases m <;> rfl
  · simp only [track_pdf_access]
    by_cases h : (record_access env).success = true
    · rw [if_pos h, if_pos h]
    · rw [if_neg h, if_neg h]

/-- C7: in `record_access` each channel's send operation runs exactly once
whatever the other channel's outcome or configuration (the email status is a
function of the email inputs alone, and symmetrically), and every transport
exception or non-success response is converted into that channel's status
string instead of propagating. -/
theorem channel_independence (env : AppEnv) :
    (record_access env).email_status =
      (send_email_notification env.emailCfg env.smtp).1 ∧
    (record_access env).whatsapp_status =
      (send_whatsapp_notification env.waCfg env.waNet).1 ∧
    countAct isEmailSend (record_access env).trace = 1 ∧
    countAct isChatSend (record_access env).trace = 1 ∧
    (∀ ec : EmailConfig, ∀ m : String,
      (send_email_notification ec (Except.error m)).1 =
        if emailConfigured ec then "error: " ++ m else "not_configured") ∧
    (∀ wc : WhatsAppConfig, ∀ m : String,
      (send_whatsapp_notification wc (Except.error m)).1 =
        if waConfigured wc then "error: " ++ m else "not_configured") ∧
    (∀ wc : WhatsAppConfig, ∀ s : Nat,
      (send_whatsapp_notification wc (Except.ok s)).1 =
        if waConfigured wc then
          (if s = 200 then "sent" else "api_error_" ++ toString s)
        else "not_configured") := by
  obtain ⟨hs1, hs2⟩ := record_access_statuses env
  obtain ⟨_, hc1, hc2, _, _⟩ := app_pipeline_ordering env
  refine ⟨hs1, hs2, hc1, hc2, ?_, ?_, ?_⟩
  · intro ec m
    by_cases h : emailConfigured ec = true <;>
      simp [send_email_notification, h]
  · intro wc m
    by_cases h : waConfigured wc = true <;>
      simp [send_whatsapp_notification, h]
  · intro wc s
    by_cases h : waConfigured wc = true <;>
      simp [send_whatsapp_notification, h]

/-- With a truthy GPS reading, `record_access_async` builds the location
record directly from the reading: coordinates verbatim, accuracy
`gps_data.get('accuracy', 50)` with no clamping, tagged `browser_gps`. -/
theorem chooseLocation_gps (g : GpsData) (l : LocationData)
    (hlat : truthyQ g.latitude = true) (hlng : truthyQ g.longitude = true) :
    chooseLocation (some g) l =
      { country := g.country.getD l.country, city := g.city.getD l.city
        region := g.region.getD l.region, latitude := g.latitude
        longitude := g.longitude, accuracy := g.accuracy.getD 50
        gps_source := "browser_gps", service := "browser_geolocation" } := by
  simp [chooseLocation, hlat, hlng]

/-- Whenever the INSERT commits, the location columns of the stored row are
exactly the chosen location record (the later status UPDATE does not touch
them). -/
theorem process_row_loc (env : DebugEnv) (hins : exOk env.ins = true) :
    (process_notifications env).row.map (fun r => r.loc) =
      some (chooseLocation env.gps
        (get_accurate_location env.ip env.geo1 env.geo2 env.geo3).1) := by
  cases hi : env.ins with
  | error e => rw [hi] at hins; simp [exOk] at hins
  | ok v =>
    cases hu : env.upd <;> simp [process_notifications, hi, hu]

/-- C3 counterexample: the code stores the client-reported accuracy verbatim
(`gps_data.get('accuracy', 50)`); no configured ceiling exists for which the
stored accuracy is the input clamped to that ceiling — for every candidate
ceiling there is a larger input that is stored unchanged. -/
theorem gps_accuracy_unclamped_cex :
    (chooseLocation
        (some ⟨some 1, some 2, some 1000000000, none, none, none⟩)
        baseLocation).accuracy = 1000000000 ∧
    ¬ ∃ M : ℚ, ∀ a : ℚ, M < a →
        (chooseLocation (some ⟨some 1, some 2, some a, none, none, none⟩)
          baseLocation).accuracy = M := by
  constructor
  · decide
  · rintro ⟨M, hM⟩
    have hmax : M ≤ max M 0 := le_max_left M 0
    have h1 := hM (max M 0 + 1) (by linarith)
    have h2 : (chooseLocation
        (some ⟨some 1, some 2, some (max M 0 + 1), none, none, none⟩)
        baseLocation).accuracy = max M 0 + 1 := by
      norm_num [chooseLocation, truthyQ]
    rw [h2] at h1
    linarith

/-- C3 (amended): for a supplied GPS reading with truthy latitude and
longitude the persisted location has source `browser_gps` and coordinates
exactly the input values, and its stored accuracy equals the input accuracy
EXACTLY (defaulting to 50 when absent) — the code has no clamping ceiling. -/
theorem gps_location_persisted_amended (env : DebugEnv) (g : GpsData)
    (hg : env.gps = some g) (hlat : truthyQ g.latitude = true)
    (hlng : truthyQ g.longitude = true) (hins : exOk env.ins = true) :
    ∃ r : DebugRow, (process_notifications env).row = some r ∧
      r.loc.gps_source = "browser_gps" ∧
      r.loc.latitude = g.latitude ∧
      r.loc.longitude = g.longitude ∧
      r.loc.accuracy = g.accuracy.getD 50 := by
  have h := process_row_loc env hins
  rw [hg, chooseLocation_gps g _ hlat hlng] at h
  cases hrow : (process_notifications env).row with
  | none => rw [hrow] at h; simp at h
  | some r =>
    rw [hrow] at h
    simp only [Option.map_some', Option.some.injEq] at h
    exact ⟨r, rfl, by rw [h], by rw [h], by rw [h], by rw [h]⟩

/-- Witness for C3's amended theorem at a concrete environment. -/
theorem gps_location_persisted_witness :
    (some (GpsData.mk (some 7) (some 8) (some 25) none none none) =
        some (GpsData.mk (some 7) (some 8) (some 25) none none none) ∧
      truthyQ (some 7) = true ∧ truthyQ (some 8) = true ∧
      exOk (Except.ok 1 : Except String Nat) = true) ∧
    (∃ r : DebugRow,
      (process_notifications
        { pdf_id := "DOC2", client_name := "Bob", ip := "9.9.9.9"
          user_agent := "UA"
          gps := some (GpsData.mk (some 7) (some 8) (some 25) none none none)
          geo1 := ProvOutcome.exn ("e1"), geo2 := ProvOutcome.exn ("e2")
          geo3 := ProvOutcome.exn ("e3")
          emailCfg := ⟨none, none, none⟩, smtp := Except.ok ()
          waCfg := ⟨none, none, none⟩
          waNet := DebugWaOutcome.exn ("e4")
          ins := Except.ok 1, upd := Except.ok () }).row = some r ∧
      r.loc.gps_source = "browser_gps" ∧
      r.loc.latitude = some 7 ∧
      r.loc.longitude = some 8 ∧
      r.loc.accuracy = (some (25 : ℚ)).getD 50) :=
  ⟨⟨rfl, by decide, by decide, rfl⟩,
   gps_location_persisted_amended
     { pdf_id := "DOC2", client_name := "Bob", ip := "9.9.9.9"
       user_agent := "UA"
       gps := some (GpsData.mk (some 7) (some 8) (some 25) none none none)
       geo1 := ProvOutcome.exn ("e1"), geo2 := ProvOutcome.exn ("e2")
       geo3 := ProvOutcome.exn ("e3")
       emailCfg := ⟨none, none, none⟩, smtp := Except.ok ()
       waCfg := ⟨none, none, none⟩
       waNet := DebugWaOutcome.exn ("e4")
       ins := Except.ok 1, upd := Except.ok () }
     (GpsData.mk (some 7) (some 8) (some 25) none none none)
     rfl (by decide) (by decide) rfl⟩

/-- C4 counterexample: with no configuration present, `src/debud_app.py`'s
send operations return `config_error: ...` statuses, not `not_configured`. -/
theorem not_configured_status_cex :
    (debud_send_email_notification ⟨none, none, none⟩ (Except.ok ())).1 ≠
      "not_configured" ∧
    (debud_send_whatsapp_notification ⟨none, none, none⟩
        (Except.ok (200, "ok"))).1 ≠ "not_configured" ∧
    debud_send_email_notification ⟨none, none, none⟩ (Except.ok ()) =
      ("config_error: Email configuration incomplete", []) ∧
    debud_send_whatsapp_notification ⟨none, none, none⟩ (Except.ok (200, "ok")) =
      ("config_error: WhatsApp configuration incomplete", []) :=
  ⟨by decide, by decide, by decide, by decide⟩

/-- C4 (amended): when a channel's required configuration is absent, the send
operations of `src/app.py` and `src/debug_app.py` return `not_configured`,
while those of `src/debud_app.py` return `config_error: <detail>`; in every
variant no outbound network call is made, and with neither channel configured
the asynchronous pipeline persists both statuses as `not_configured` with no
channel network call in its trace. -/
theorem unconfigured_channels_amended (ec : EmailConfig) (wc : WhatsAppConfig)
    (smtp : Except String Unit) (smtpD : Except SmtpExc Unit)
    (wa : Except String Nat) (waD : Except WaExc (Nat × String))
    (waG : DebugWaOutcome) (env : DebugEnv)
    (he : emailConfigured ec = false) (hw : waConfigured wc = false)
    (hde : debugEmailConfigured ec = false)
    (hee : env.emailCfg = ec) (hww : env.waCfg = wc)
    (hins : exOk env.ins = true) (hupd : exOk env.upd = true) :
    send_email_notification ec smtp = ("not_configured", []) ∧
    send_whatsapp_notification wc wa = ("not_configured", []) ∧
    debug_send_email_notification ec smtp = ("not_configured", []) ∧
    debug_send_whatsapp_notification wc waG = ("not_configured", []) ∧
    debud_send_email_notification ec smtpD =
      ("config_error: Email configuration incomplete", []) ∧
    debud_send_whatsapp_notification wc waD =
      ("config_error: WhatsApp configuration incomplete", []) ∧
    (∃ r : DebugRow, (process_notifications env).row = some r ∧
      r.email_status = "not_configured" ∧
      r.whatsapp_status = "not_configured") ∧
    countAct isChannelNet (process_notifications env).trace = 0 := by
  refine ⟨by simp [send_email_notification, he],
    by simp [send_whatsapp_notification, hw],
    by simp [debug_send_email_notification, hde],
    by simp [debug_send_whatsapp_notification, hw],
    by simp [debud_send_email_notification, he],
    by simp [debud_send_whatsapp_notification, hw], ?_, ?_⟩
  · cases hi : env.ins with
    | error e => rw [hi] at hins; simp [exOk] at hins
    | ok v =>
      cases hu : env.upd with
      | error e => rw [hu] at hupd; simp [exOk] at hupd
      | ok u =>
        refine ⟨{ pdf_id := env.pdf_id, client_name := env.client_name
                  ip_address := env.ip
                  loc := chooseLocation env.gps
                    (get_accurate_location env.ip env.geo1 env.geo2 env.geo3).1
                  user_agent := env.user_agent
                  email_status :=
                    (debug_send_email_notification env.emailCfg env.smtp).1
                  whatsapp_status :=
                    (debug_send_whatsapp_notification env.waCfg env.waNet).1
                  status := "opened" }, ?_, ?_, ?_⟩
        · simp [process_notifications, hi, hu]
        · simp [debug_send_email_notification, hee, hde]
        · simp [debug_send_whatsapp_notification, hww, hw]
  · rw [process_trace_eq]
    cases hi : env.ins with
    | error e => rw [hi] at hins; simp [exOk] at hins
    | ok v =>
      rcases debug_geo_trace_shape env.ip env.geo1 env.geo2 env.geo3 with hg | hg <;>
      cases hu : env.upd <;>
      simp [hg, hee, hww, debug_send_email_notification, hde,
        debug_send_whatsapp_notification, hw, countAct, isChannelNet]

/-- Witness for C4's amended theorem with every configuration value unset. -/
theorem unconfigured_channels_witness :
    (emailConfigured ⟨none, none, none⟩ = false ∧
      waConfigured ⟨none, none, none⟩ = false ∧
      debugEmailConfigured ⟨none, none, none⟩ = false) ∧
    send_email_notification ⟨none, none, none⟩ (Except.ok ()) =
      ("not_configured", []) ∧
    (∃ r : DebugRow,
      (process_notifications
        { pdf_id := "DOC3", client_name := "Eve", ip := "9.9.9.9"
          user_agent := "UA", gps := none
          geo1 := ProvOutcome.exn ("e1"), geo2 := ProvOutcome.exn ("e2")
          geo3 := ProvOutcome.exn ("e3")
          emailCfg := ⟨none, none, none⟩, smtp := Except.ok ()
          waCfg := ⟨none, none, none⟩
          waNet := DebugWaOutcome.exn ("e4")
          ins := Except.ok 1, upd := Except.ok () }).row = some r ∧
      r.email_status = "not_configured" ∧
      r.whatsapp_status = "not_configured") :=
  ⟨⟨by decide, by decide, by decide⟩,
   (unconfigured_channels_amended ⟨none, none, none⟩ ⟨none, none, none⟩
      (Except.ok ()) (Except.ok ()) (Except.ok 200) (Except.ok (200, "ok"))
      (DebugWaOutcome.exn ("e4"))
      { pdf_id := "DOC3", client_name := "Eve", ip := "9.9.9.9"
        user_agent := "UA", gps := none
        geo1 := ProvOutcome.exn ("e1"), geo2 := ProvOutcome.exn ("e2")
        geo3 := ProvOutcome.exn ("e3")
        emailCfg := ⟨none, none, none⟩, smtp := Except.ok ()
        waCfg := ⟨none, none, none⟩
        waNet := DebugWaOutcome.exn ("e4")
        ins := Except.ok 1, upd := Except.ok () }
      (by decide) (by decide) (by decide) rfl rfl rfl rfl).1,
   (unconfigured_channels_amended ⟨none, none, none⟩ ⟨none, none, none⟩
      (Except.ok ()) (Except.ok ()) (Except.ok 200) (Except.ok (200, "ok"))
      (DebugWaOutcome.exn ("e4"))
      { pdf_id := "DOC3", client_name := "Eve", ip := "9.9.9.9"
        user_agent := "UA", gps := none
        geo1 := ProvOutcome.exn ("e1"), geo2 := ProvOutcome.exn ("e2")
        geo3 := ProvOutcome.exn ("e3")
        emailCfg := ⟨none, none, none⟩, smtp := Except.ok ()
        waCfg := ⟨none, none, none⟩
        waNet := DebugWaOutcome.exn ("e4")
        ins := Except.ok 1, upd := Except.ok () }
      (by decide) (by decide) (by decide) rfl rfl rfl rfl).2.2.2.2.2.2.1⟩

/-- C9: a POST body whose latitude or longitude equals 0 is treated exactly
like an absent GPS reading — the pipeline falls back to IP-based location —
because presence is tested by Python truthiness of the coordinate values. -/
theorem zero_coordinate_gps_fallback (g : GpsData) (ipLoc : LocationData)
    (h : g.latitude = some 0 ∨ g.longitude = some 0) :
    chooseLocation (some g) ipLoc = ipLoc ∧
    chooseLocation (some g) ipLoc = chooseLocation none ipLoc ∧
    (∀ env : DebugEnv, env.gps = some g →
      process_notifications env = process_notifications { env with gps := none }) := by
  have hb : (truthyQ g.latitude && truthyQ g.longitude) = false := by
    rcases h with h | h <;> simp [h, truthyQ]
  have hcl : ∀ l : LocationData, chooseLocation (some g) l = l := by
    intro l; simp [chooseLocation, hb]
  refine ⟨hcl ipLoc, by rw [hcl ipLoc]; rfl, ?_⟩
  intro env he
  obtain ⟨pid, cn, ip, ua, gps, g1, g2, g3, ec, sm, wc, wa, ins, upd⟩ := env
  simp only at he
  subst he
  cases ins <;> cases upd <;> simp [process_notifications, chooseLocation, hb]

/-- Witness for C9 at a concrete equator-crossing reading. -/
theorem zero_coordinate_gps_fallback_witness :
    ((GpsData.mk (some 0) (some 5) (some 10) none none none).latitude = some 0 ∨
      (GpsData.mk (some 0) (some 5) (some 10) none none none).longitude = some 0) ∧
    chooseLocation (some (GpsData.mk (some 0) (some 5) (some 10) none none none))
        baseLocation = baseLocation :=
  ⟨Or.inl rfl,
   (zero_coordinate_gps_fallback _ baseLocation (Or.inl rfl)).1⟩

end PdfTracker
